import Mathlib

/-!
# FineFlex backend — verification of the financial-summary and advice core

Shallow embedding of `server.js` (and the `expenses` table schema from
`database.js`). Currency amounts are JavaScript numbers in the source and are
modelled as exact rationals (`ℚ`); number-to-string interpolation is modelled
by `renderQ`, which prints integers exactly (all the values the claims test
are integers). Request-body values for the expense-creation endpoint, whose
validation depends on JavaScript truthiness and coercing comparison, are
modelled by the small dynamic-value type `JSVal`.
-/

namespace FineFlex

/-- A row of the `expenses` table, restricted to the columns the aggregation
and advice code reads (`name`, `amount`, `category`). `amount` is a `REAL`
column, modelled as `ℚ`. -/
structure Expense where
  name : String
  amount : ℚ
  category : String
deriving Repr, DecidableEq

/-- A row of the `users` table, restricted to the columns the handlers read.
`monthly_income` and `savings_goal` are `REAL DEFAULT 0` columns. -/
structure User where
  username : String
  email : String
  monthly_income : ℚ
  savings_goal : ℚ
  openai_key : Option String
deriving Repr, DecidableEq

/-- JavaScript `a || b` on numbers, for the idiom `user.monthly_income || 0`:
a number is falsy exactly when it is `0` (`NaN` does not arise for `ℚ`). -/
def jsNumOr (a b : ℚ) : ℚ := if a = 0 then b else a

/-- JavaScript `Array.prototype.reduce((sum, exp) => sum + exp.amount, 0)`. -/
def sumAmounts (l : List Expense) : ℚ := l.foldl (fun sum exp => sum + exp.amount) 0

/-- The plain-data-property path of
`categories[exp.category] = (categories[exp.category] || 0) + exp.amount`:
add to the first entry with this key, else append a fresh entry at the end.
JavaScript keys whose behavior deviates from a plain own data property are
handled at the call sites: `jsRecordAdd` intercepts `"__proto__"` for the
budget branch's object, and the SQL grouping below has no such exception. -/
def upsert (acc : List (String × ℚ)) (cat : String) (amt : ℚ) : List (String × ℚ) :=
  match acc with
  | [] => [(cat, amt)]
  | (c, a) :: t => if c = cat then (c, a + amt) :: t else (c, a) :: upsert t cat amt

/-- Per-category sums of a list of expense rows: the embedding of the SQL
`SELECT category, SUM(amount) FROM expenses ... GROUP BY category` result set
used by `GET /api/stats`. SQLite's GROUP BY output order is unspecified; the
handler only folds these rows into an order-independent total, and no theorem
depends on this list's order. (The JS `categories` object of the budget
branch is embedded separately, via `jsRecordAdd` and `jsObjectEntries`.) -/
def groupByCategory (rows : List Expense) : List (String × ℚ) :=
  rows.foldl (fun acc exp => upsert acc exp.category exp.amount) []

/-- `c.toNat - '0'.toNat` accumulation for a digit string. -/
def digitsToNat (l : List Char) : Nat := l.foldl (fun n c => 10 * n + (c.toNat - 48)) 0

/-- Whether JavaScript treats a string property key as an array index for
enumeration-order purposes: the canonical decimal numeral of an integer
`0 ≤ n < 2^32 − 1` (nonempty, all digits, no leading zero except `"0"`
itself). -/
def isArrayIndexKey (s : String) : Bool :=
  let l := s.toList
  !l.isEmpty && l.all (·.isDigit) && (s == "0" || !(l.headD '0' == '0')) &&
    digitsToNat l < 4294967295

/-- The string keys a plain object inherits from `Object.prototype` (Node):
category labels equal to one of these do not behave as fresh own data
properties when read. -/
def objectPrototypeKeys : List String :=
  ["__proto__", "constructor", "hasOwnProperty", "isPrototypeOf",
   "propertyIsEnumerable", "toLocaleString", "toString", "valueOf",
   "__defineGetter__", "__defineSetter__", "__lookupGetter__", "__lookupSetter__"]

/-- A category label that behaves as a plain own data property of the
`categories` object: not an array-index-like key (whose enumeration order is
numeric, not insertional) and not a key inherited from `Object.prototype`
(whose read is truthy, so `|| 0` never applies). -/
def plainCategoryKey (s : String) : Bool :=
  !(isArrayIndexKey s) && !(objectPrototypeKeys.contains s)

/-- One step `categories[exp.category] = (categories[exp.category] || 0) + exp.amount`
on the own-property list, following JavaScript object semantics as far as the
claims reach: assignment to `"__proto__"` invokes the inherited prototype
setter, which ignores a non-object value — a silent no-op, so no own property
is ever created and that category is dropped; every other key is written as
an own data property in insertion order. (For the remaining
`Object.prototype` keys, e.g. `"constructor"`, the real read yields an
inherited function and `+` produces an implementation-rendered string, which
this numeric model does not represent; every theorem that relies on this
model therefore excludes all of `objectPrototypeKeys` by hypothesis.) -/
def jsRecordAdd (acc : List (String × ℚ)) (cat : String) (amt : ℚ) :
    List (String × ℚ) :=
  if cat = "__proto__" then acc else upsert acc cat amt

/-- Ascending insertion by numeric key value, for array-index-like keys. -/
def insertIndexKey (p : String × ℚ) : List (String × ℚ) → List (String × ℚ)
  | [] => [p]
  | q :: t =>
      if digitsToNat p.1.toList ≤ digitsToNat q.1.toList then p :: q :: t
      else q :: insertIndexKey p t

/-- Sort array-index-like entries into ascending numeric key order. -/
def sortIndexKeys (l : List (String × ℚ)) : List (String × ℚ) :=
  l.foldr insertIndexKey []

/-- `Object.entries` enumeration order over the own properties: array-index
keys first, in ascending numeric order, then the remaining string keys in
insertion order. -/
def jsObjectEntries (props : List (String × ℚ)) : List (String × ℚ) :=
  sortIndexKeys (props.filter fun p => isArrayIndexKey p.1) ++
    props.filter fun p => !(isArrayIndexKey p.1)

/-- `categoryTotals.reduce((sum, cat) => sum + cat.total, 0)`. -/
def sumTotals (l : List (String × ℚ)) : ℚ := l.foldl (fun sum cat => sum + cat.2) 0

/-- The JSON body produced by the `GET /api/stats` handler. -/
structure StatsResponse where
  monthly_income : ℚ
  savings_goal : ℚ
  total_expenses : ℚ
  saved_amount : ℚ
  goal_percentage : ℚ
  category_totals : List (String × ℚ)
deriving Repr, DecidableEq

/-- The `GET /api/stats` handler (server.js lines 199–229), as a function of
the user row and of the user's expense rows dated in the current month (the
`WHERE user_id = ? AND date >= date('now','start of month')` result set). -/
def statsHandler (user : User) (inMonth : List Expense) : StatsResponse :=
  let categoryTotals := groupByCategory inMonth
  let totalExpenses := sumTotals categoryTotals
  let saved := max 0 (jsNumOr user.monthly_income 0 - totalExpenses)
  let goalPercentage :=
    if user.savings_goal > 0 then min 100 (saved / user.savings_goal * 100) else 0
  { monthly_income := user.monthly_income
    savings_goal := user.savings_goal
    total_expenses := totalExpenses
    saved_amount := saved
    goal_percentage := goalPercentage
    category_totals := categoryTotals }

/-! ## String utilities (JS `toLowerCase`, `includes`, `trim`, interpolation) -/

/-- `String.toLowerCase` restricted to its ASCII action (the keyword matching
in the advice engine only involves ASCII). -/
def strToLower (s : String) : String := ⟨s.data.map Char.toLower⟩

/-- Strip leading and trailing whitespace from a character list. -/
def trimChars (l : List Char) : List Char :=
  ((l.dropWhile Char.isWhitespace).reverse.dropWhile Char.isWhitespace).reverse

/-- JavaScript `s.trim()` (on the whitespace characters the claims exercise). -/
def jsTrim (s : String) : String := ⟨trimChars s.data⟩

/-- Helper for substring search on character lists. -/
def containsAux (l pat : List Char) : Bool :=
  match l with
  | [] => pat.isEmpty
  | _ :: t => if pat.isPrefixOf l then true else containsAux t pat

/-- JavaScript `s.includes(pat)`. -/
def strContains (s pat : String) : Bool := containsAux s.toList pat.toList

/-- Number-to-string interpolation `${q}`. Integral values print exactly as
JavaScript prints them; non-integral values print as exact fractions (an
acknowledged abstraction of float formatting, exercised by no claim). -/
def renderQ (q : ℚ) : String :=
  if q.den = 1 then toString q.num else toString q.num ++ "/" ++ toString q.den

/-- `x.toFixed(1)` on a nonnegative rational: half-up rounding to one decimal
digit (used only inside the chat context string). -/
def toFixed1 (q : ℚ) : String :=
  let n := ⌊q * 10 + 1 / 2⌋
  toString (n / 10) ++ "." ++ toString (n % 10)

/-! ## The Advice Engine: `generateMockAIResponse` (server.js lines 353–403) -/

/-- The savings branch's return value (server.js lines 362–367). -/
def savingsAdvice (income saved goal : ℚ) : String :=
  "Based on your current financial situation:\n• Monthly Income: ₹" ++ renderQ income ++
    "\n• Current Savings: ₹" ++ renderQ saved ++
    "\n• Savings Goal: ₹" ++ renderQ goal ++
    "\n\nI recommend setting aside 20% of your income (₹" ++ renderQ (income * 0.2) ++
    ") each month. Consider automating transfers to your savings account right after you receive your income."

/-- The budget branch (server.js lines 369–381): builds the `categories`
object with `jsRecordAdd` and renders one bullet per `Object.entries` entry
(`jsObjectEntries` order), then the fixed 50/30/20 sentence. -/
def budgetAdvice (expenses : List Expense) : String :=
  let categories := expenses.foldl
    (fun acc exp => jsRecordAdd acc exp.category exp.amount) []
  let advice := "Your spending breakdown:\n"
  let advice := (jsObjectEntries categories).foldl
    (fun acc ce => acc ++ "• " ++ ce.1 ++ ": ₹" ++ renderQ ce.2 ++ "\n") advice
  advice ++ "\nTry the 50/30/20 rule: 50% needs, 30% wants, 20% savings."

/-- The investment branch's return value (server.js lines 383–387). -/
def investmentAdvice (income totalExpenses : ℚ) : String :=
  "For your income of ₹" ++ renderQ income ++
    ", consider these investment options:\n1. Emergency Fund: 3-6 months of expenses (₹" ++
    renderQ (totalExpenses * 4) ++
    ")\n2. Mutual Funds: Start with ₹" ++ renderQ (min 5000 (income * 0.1)) ++
    " monthly SIP\n3. Fixed Deposits: Safe option for short-term goals"

/-- The debt branch's return value (server.js lines 389–393). -/
def debtAdvice : String :=
  "For debt management:\n• Prioritize high-interest debts first\n• Consider debt consolidation if you have multiple loans\n• Aim to keep total EMI under 40% of your monthly income"

/-- The generic branch's return value (server.js lines 395–401). -/
def genericAdvice (question : String) (income totalExpenses saved goal : ℚ) : String :=
  "I understand you\x27re asking about \"" ++ question ++
    "\". As your financial advisor, I can see:\n• Your monthly income: ₹" ++ renderQ income ++
    "\n• Current expenses: ₹" ++ renderQ totalExpenses ++
    "\n• Savings progress: ₹" ++ renderQ saved ++ " of ₹" ++ renderQ goal ++
    " goal\n\nFor personalized advice, consider tracking all your expenses and setting clear financial goals. Would you like specific advice on savings, budgeting, or investments?"

/-- `generateMockAIResponse(question, user, expenses)`: deterministic fallback
advice. Faithful translation of the source: computes income, goal, total
expenses and saved amount, lowercases the question, and dispatches on keyword
containment in source order (savings, budget, investment, debt, generic),
each branch returning the corresponding template above. -/
def generateMockAIResponse (question : String) (user : User) (expenses : List Expense) :
    String :=
  let income := jsNumOr user.monthly_income 0
  let goal := jsNumOr user.savings_goal 0
  let totalExpenses := sumAmounts expenses
  let saved := max 0 (income - totalExpenses)
  let q := strToLower question
  if strContains q "save" || strContains q "saving" then
    savingsAdvice income saved goal
  else if strContains q "budget" || strContains q "spend" then
    budgetAdvice expenses
  else if strContains q "invest" || strContains q "grow" then
    investmentAdvice income totalExpenses
  else if strContains q "debt" || strContains q "loan" then
    debtAdvice
  else
    genericAdvice question income totalExpenses saved goal

/-! ## `POST /api/expenses` validation (server.js lines 132–151)

The guard `if (!name || !amount || amount <= 0)` acts on raw JSON body
values, so its embedding needs JavaScript truthiness and the coercing `<=`
comparison. `JSVal` covers the JSON primitives a request body can carry in
those positions (objects/arrays are omitted; no claim needs them). -/

/-- A JavaScript value as it may appear in the request body. -/
inductive JSVal where
  | num (q : ℚ)
  | nan
  | str (s : String)
  | nullv
  | undef
deriving Repr, DecidableEq

/-- JavaScript truthiness test `!v` (negated): a number is falsy iff `0` or
`NaN`, a string iff empty, `null`/`undefined` always. -/
def jsFalsy : JSVal → Bool
  | .num q => q = 0
  | .nan => true
  | .str s => s = ""
  | .nullv => true
  | .undef => true

/-- JavaScript `ToNumber` on a string (`none` = `NaN`): trimmed empty string
is `0`; an optional sign followed by decimal digits with an optional fraction
part parses exactly; anything else is `NaN`. (Hex/exponent/`Infinity` forms
are not produced by any claim's inputs.) -/
def parseNumeric (s : String) : Option ℚ :=
  let t := trimChars s.toList
  if t.isEmpty then some 0
  else
    let (neg, rest) : Bool × List Char :=
      match t with
      | '-' :: r => (true, r)
      | '+' :: r => (false, r)
      | r => (false, r)
    let signed : ℚ → Option ℚ := fun q => some (if neg then -q else q)
    let intPart := rest.takeWhile (·.isDigit)
    let after := rest.dropWhile (·.isDigit)
    match after with
    | [] => if intPart.isEmpty then none else signed (digitsToNat intPart)
    | '.' :: fracDigits =>
        if fracDigits.all (·.isDigit) && !(intPart.isEmpty && fracDigits.isEmpty) then
          signed ((digitsToNat intPart : ℚ) +
            (digitsToNat fracDigits : ℚ) / (10 ^ fracDigits.length))
        else none
    | _ => none

/-- JavaScript `ToNumber` (`none` = `NaN`). -/
def jsToNumber : JSVal → Option ℚ
  | .num q => some q
  | .nan => none
  | .str s => parseNumeric s
  | .nullv => some 0
  | .undef => none

/-- JavaScript `v <= 0`: both sides are converted to numbers (the right side
already is one), and any comparison involving `NaN` is false. -/
def jsLeZero (v : JSVal) : Bool :=
  match jsToNumber v with
  | none => false
  | some q => q ≤ 0

/-- The rejection condition of the `POST /api/expenses` handler:
`!name || !amount || amount <= 0` (true ⇒ respond 400, insert nothing). -/
def expenseRejected (name amount : JSVal) : Bool :=
  jsFalsy name || jsFalsy amount || jsLeZero amount

/-! ## The Chat Orchestrator: `POST /api/chat` (server.js lines 232–349) -/

/-- The shape-relevant part of a parsed Gemini candidate: the three paths the
extraction chain probes (`content.parts[0].text`, `output_text`,
`content.text`), each possibly absent. -/
structure GeminiCandidate where
  content_parts_text : Option String
  output_text : Option String
  content_text : Option String
deriving Repr, DecidableEq

/-- A successfully parsed Gemini response body (`candidates` possibly absent
or empty is modelled by the empty list). -/
structure GeminiData where
  candidates : List GeminiCandidate
deriving Repr, DecidableEq

/-- Outcome of the awaited `fetch` + body parse, as observed by the handler.
The first three all throw inside the inner `try` and land in its `catch`. -/
inductive AICallOutcome where
  | httpError
  | transportError
  | parseError
  | success (data : GeminiData)
deriving Repr, DecidableEq

/-- Whether the outcome throws (every constructor except `success`). -/
def AICallOutcome.isFailure : AICallOutcome → Bool
  | .success _ => false
  | _ => true

/-- JavaScript truthy-`||` step on an optional string: an empty string is
falsy and is passed over. -/
def jsTruthy (o : Option String) : Option String :=
  o.bind fun s => if s = "" then none else some s

/-- The extraction chain
`geminiData?.candidates?.[0]?.content?.parts?.[0]?.text || …?.output_text || …?.content?.text || null`. -/
def extractAIText (d : GeminiData) : Option String :=
  let c := d.candidates.head?
  (jsTruthy (c.bind (·.content_parts_text))).orElse fun _ =>
    (jsTruthy (c.bind (·.output_text))).orElse fun _ =>
      jsTruthy (c.bind (·.content_text))

/-- The fixed soft-failure reply sent when no text could be extracted. -/
def apologyMessage : String :=
  "Sorry, I couldn’t generate a complete response this time. Try rephrasing your question!"

/-- The missing-key error message (server.js line 244). -/
def missingKeyMessage : String :=
  "Gemini API key not configured. Please add GEMINI_API_KEY to your .env file."

/-- What the `POST /api/chat` handler sends: either `res.json({response})` or
`res.status(s).json({error})`. -/
inductive ChatResult where
  | ok (response : String)
  | error (status : Nat) (msg : String)
deriving Repr, DecidableEq

/-- The `LIMIT 5` clause of the chat expense query, applied to the user's
in-month expense rows in `ORDER BY date DESC` order. -/
def recentForChat (inMonthDesc : List Expense) : List Expense := inMonthDesc.take 5

/-- The `financialContext` template literal (server.js lines 265–273), as a
function of the (already `LIMIT 5`-truncated) expense rows. -/
def financialContext (user : User) (expenses : List Expense) : String :=
  let totalExpenses := sumAmounts expenses
  let saved := max 0 (jsNumOr user.monthly_income 0 - totalExpenses)
  "\n            User Financial Summary:\n            - Monthly Income: ₹" ++
    renderQ (jsNumOr user.monthly_income 0) ++
    "\n            - Savings Goal: ₹" ++ renderQ (jsNumOr user.savings_goal 0) ++
    "\n            - Current Month Expenses: ₹" ++ renderQ (jsNumOr totalExpenses 0) ++
    "\n            - Amount Saved: ₹" ++ renderQ (jsNumOr saved 0) ++
    "\n            - Savings Rate: " ++
    (if user.monthly_income = 0 then "0"
     else toFixed1 (saved / user.monthly_income * 100)) ++
    "%\n            - Recent Expenses: " ++
    String.intercalate ", "
      ((expenses.take 5).map fun e => e.name ++ ": ₹" ++ renderQ e.amount ++
        " (" ++ e.category ++ ")") ++
    "\n          "

/-- The `POST /api/chat` handler, as a function of: the server's
`GEMINI_API_KEY` environment value, the request `message`, the user row, the
user's in-month expense rows (date-descending, before the `LIMIT 5`), and the
outcome of the single external call. Mirrors the source: falsy message → 400;
falsy key → 500; thrown call ("httpError"/"transportError"/"parseError") →
`catch` → mock fallback on the truncated expense list; success → extraction
or the fixed apology. -/
def chatHandler (geminiKey : Option String) (message : String) (user : User)
    (inMonthDesc : List Expense) (outcome : AICallOutcome) : ChatResult :=
  if message = "" then .error 400 "Message is required"
  else if geminiKey = none ∨ geminiKey = some "" then .error 500 missingKeyMessage
  else
    let expenses := recentForChat inMonthDesc
    match outcome with
    | .success d =>
        match extractAIText d with
        | some t => .ok (jsTrim t)
        | none => .ok apologyMessage
    | _ => .ok (generateMockAIResponse message user expenses)

/-! ## Specification-side view of per-category grouping

`groupSpec` follows the spec's words for the budget breakdown ("rebuilds a
per-category total by summing recent expenses grouped by category (insertion
order of first appearance)"): the key list is the category sequence with
later duplicates removed, and each key carries the sum of its category's
amounts. `groupByCategory` (the embedding of the source's accumulator loop)
is proved equal to it below. -/

/-- The elements of a list in order of first appearance, later duplicates
removed. -/
def firstOccurrences : List String → List String
  | [] => []
  | c :: t => c :: (firstOccurrences t).filter (fun d => !(d == c))

/-- Spec-side grouping: each distinct category exactly once, in insertion
order of first appearance, paired with the sum of that category's amounts. -/
def groupSpec (rows : List Expense) : List (String × ℚ) :=
  (firstOccurrences (rows.map Expense.category)).map
    fun c => (c, sumAmounts (rows.filter fun y => y.category == c))

/-! ## Summation lemmas -/

theorem foldl_add_eq {α : Type} (f : α → ℚ) (l : List α) (x : ℚ) :
    l.foldl (fun s e => s + f e) x = x + (l.map f).sum := by
  induction l generalizing x with
  | nil => simp
  | cons a t ih => simp [ih, add_assoc]

theorem sumAmounts_eq (l : List Expense) :
    sumAmounts l = (l.map Expense.amount).sum := by
  simp [sumAmounts, foldl_add_eq]

theorem sumTotals_eq (l : List (String × ℚ)) :
    sumTotals l = (l.map Prod.snd).sum := by
  simp [sumTotals, foldl_add_eq]

@[simp] theorem sumAmounts_nil : sumAmounts [] = 0 := rfl

@[simp] theorem sumAmounts_cons (e : Expense) (l : List Expense) :
    sumAmounts (e :: l) = e.amount + sumAmounts l := by
  simp [sumAmounts_eq]

theorem sumAmounts_append (l₁ l₂ : List Expense) :
    sumAmounts (l₁ ++ l₂) = sumAmounts l₁ + sumAmounts l₂ := by
  simp [sumAmounts_eq]

@[simp] theorem sumTotals_nil : sumTotals [] = 0 := rfl

@[simp] theorem sumTotals_cons (p : String × ℚ) (l : List (String × ℚ)) :
    sumTotals (p :: l) = p.2 + sumTotals l := by
  simp [sumTotals_eq]

theorem sumTotals_upsert (acc : List (String × ℚ)) (c : String) (a : ℚ) :
    sumTotals (upsert acc c a) = sumTotals acc + a := by
  induction acc with
  | nil => simp [upsert]
  | cons p t ih =>
      obtain ⟨k, v⟩ := p
      by_cases hk : k = c
      · subst hk; simp [upsert]; ring
      · simp [upsert, hk, ih]; ring

theorem sumTotals_foldl_upsert (rows : List Expense) :
    ∀ acc : List (String × ℚ),
      sumTotals (rows.foldl (fun a e => upsert a e.category e.amount) acc) =
        sumTotals acc + sumAmounts rows := by
  induction rows with
  | nil => intro acc; simp
  | cons x t ih =>
      intro acc
      simp [List.foldl_cons, ih, sumTotals_upsert]
      ring

/-- The total the stats handler computes from the grouped rows is the plain
sum of the in-month amounts. -/
theorem sumTotals_groupByCategory (rows : List Expense) :
    sumTotals (groupByCategory rows) = sumAmounts rows := by
  simpa using sumTotals_foldl_upsert rows []

/-! ## Structure of `upsert` and `firstOccurrences` -/

theorem upsert_of_not_mem (acc : List (String × ℚ)) (c : String) (a : ℚ)
    (h : c ∉ acc.map Prod.fst) : upsert acc c a = acc ++ [(c, a)] := by
  induction acc with
  | nil => rfl
  | cons p t ih =>
      obtain ⟨k, v⟩ := p
      simp only [List.map_cons, List.mem_cons, not_or] at h
      simp [upsert, Ne.symm h.1, ih h.2]

theorem upsert_of_mem (acc : List (String × ℚ)) (c : String) (a : ℚ)
    (hnd : (acc.map Prod.fst).Nodup) (h : c ∈ acc.map Prod.fst) :
    upsert acc c a = acc.map fun ce => if ce.1 = c then (ce.1, ce.2 + a) else ce := by
  induction acc with
  | nil => simp at h
  | cons p t ih =>
      obtain ⟨k, v⟩ := p
      simp only [List.map_cons, List.nodup_cons] at hnd
      by_cases hk : k = c
      · subst hk
        simp [upsert]
        symm
        refine List.map_congr_left ?_ |>.trans (List.map_id t)
        intro ce hce
        have : ce.1 ≠ k := by
          intro hceek
          exact hnd.1 (hceek ▸ List.mem_map_of_mem Prod.fst hce)
        simp [this]
      · simp only [List.map_cons, List.mem_cons] at h
        have hct : c ∈ t.map Prod.fst := h.resolve_left (fun hh => hk hh.symm)
        simp [upsert, hk, ih hnd.2 hct]

theorem map_fst_upsert_of_mem (acc : List (String × ℚ)) (c : String) (a : ℚ)
    (hnd : (acc.map Prod.fst).Nodup) (h : c ∈ acc.map Prod.fst) :
    (upsert acc c a).map Prod.fst = acc.map Prod.fst := by
  rw [upsert_of_mem acc c a hnd h, List.map_map]
  refine List.map_congr_left ?_
  intro ce _
  by_cases hce : ce.1 = c <;> simp [hce]

theorem firstOccurrences_filter (p : String → Bool) (s : List String) :
    firstOccurrences (s.filter p) = (firstOccurrences s).filter p := by
  induction s with
  | nil => rfl
  | cons d t ih =>
      by_cases hd : p d = true
      · simp only [List.filter_cons, hd, if_pos, firstOccurrences, ih,
          List.filter_filter]
        congr 1
        exact List.filter_congr fun e _ => by rw [Bool.and_comm]
      · have hd' : p d = false := by simpa using hd
        simp only [List.filter_cons, hd', Bool.false_eq_true, if_neg,
          not_false_iff, firstOccurrences, ih, List.filter_filter]
        refine List.filter_congr ?_
        intro e _
        by_cases he : e = d
        · subst he; simp [hd']
        · simp [he]

theorem nodup_firstOccurrences (s : List String) : (firstOccurrences s).Nodup := by
  induction s with
  | nil => simp [firstOccurrences]
  | cons d t ih =>
      simp only [firstOccurrences, List.nodup_cons]
      constructor
      · intro hmem
        have := (List.mem_filter.mp hmem).2
        simp at this
      · exact ih.filter _

/-- Generalized-accumulator characterization of the `categories` loop: the
final association list is the starting one with each entry's total increased
by its category's sum over the remaining rows, followed by the spec-side
grouping of the rows whose category is new. -/
theorem foldl_upsert_spec (rows : List Expense) :
    ∀ acc : List (String × ℚ), (acc.map Prod.fst).Nodup →
      rows.foldl (fun a e => upsert a e.category e.amount) acc =
        acc.map (fun ce =>
            (ce.1, ce.2 + sumAmounts (rows.filter fun y => y.category == ce.1))) ++
          groupSpec (rows.filter fun y => !decide (y.category ∈ acc.map Prod.fst)) := by
  induction rows with
  | nil =>
      intro acc _
      simp [groupSpec, firstOccurrences]
  | cons x t ih =>
      intro acc hnd
      rw [List.foldl_cons]
      by_cases hc : x.category ∈ acc.map Prod.fst
      · have hk := map_fst_upsert_of_mem acc x.category x.amount hnd hc
        rw [ih (upsert acc x.category x.amount) (hk ▸ hnd), hk,
          upsert_of_mem acc x.category x.amount hnd hc, List.map_map]
        have hmap : ∀ ce : String × ℚ,
            ((fun ce : String × ℚ =>
                (ce.1, ce.2 + sumAmounts (t.filter fun y => y.category == ce.1))) ∘
              (fun ce : String × ℚ =>
                if ce.1 = x.category then (ce.1, ce.2 + x.amount) else ce)) ce =
              (ce.1, ce.2 + sumAmounts ((x :: t).filter fun y => y.category == ce.1)) := by
          intro ce
          by_cases hce : ce.1 = x.category
          · simp [Function.comp, hce, List.filter_cons, add_assoc]
          · have hxb : (x.category == ce.1) = false :=
              beq_eq_false_iff_ne.mpr (Ne.symm hce)
            simp [Function.comp, hce, List.filter_cons, hxb]
        rw [List.map_congr_left fun ce _ => hmap ce]
        have hfx : ((x :: t).filter fun y =>
            !decide (y.category ∈ acc.map Prod.fst)) =
            t.filter fun y => !decide (y.category ∈ acc.map Prod.fst) := by
          simp [List.filter_cons, hc]
        rw [hfx]
      · rw [upsert_of_not_mem acc x.category x.amount hc]
        have hnd' : (((acc ++ [(x.category, x.amount)]).map Prod.fst)).Nodup := by
          simp [List.nodup_append, hnd, hc]
        rw [ih (acc ++ [(x.category, x.amount)]) hnd']
        simp only [List.map_append, List.map_cons, List.map_nil]
        have hfx : ((x :: t).filter fun y =>
            !decide (y.category ∈ acc.map Prod.fst)) =
            x :: t.filter fun y => !decide (y.category ∈ acc.map Prod.fst) := by
          simp [List.filter_cons, hc]
        rw [hfx]
        -- Abbreviations for the three remaining pieces.
        set l := t.filter (fun y => !decide (y.category ∈ acc.map Prod.fst)) with hl
        -- Right-hand tail: unfold `groupSpec` on `x :: l`.
        have hgs : groupSpec (x :: l) =
            (x.category, x.amount + sumAmounts (l.filter fun y => y.category == x.category)) ::
              ((firstOccurrences (l.map Expense.category)).filter fun d =>
                  !(d == x.category)).map
                (fun c => (c, sumAmounts (l.filter fun y => y.category == c))) := by
          simp only [groupSpec, List.map_cons, firstOccurrences]
          congr 1
          · simp [List.filter_cons]
          · refine List.map_congr_left ?_
            intro d hd
            have hdc : (x.category == d) = false := by
              have hne := (List.mem_filter.mp hd).2
              simp only [Bool.not_eq_true'] at hne
              exact beq_eq_false_iff_ne.mpr (beq_eq_false_iff_ne.mp hne).symm
            simp [List.filter_cons, hdc]
        have h1 : (acc.map fun ce : String × ℚ =>
              (ce.1, ce.2 + sumAmounts ((x :: t).filter fun y => y.category == ce.1))) =
            acc.map fun ce : String × ℚ =>
              (ce.1, ce.2 + sumAmounts (t.filter fun y => y.category == ce.1)) := by
          refine List.map_congr_left ?_
          intro ce hce
          have hne : (x.category == ce.1) = false := by
            refine beq_eq_false_iff_ne.mpr ?_
            intro heq
            exact hc (heq ▸ List.mem_map_of_mem Prod.fst hce)
          simp [List.filter_cons, hne]
        have h2 : l.filter (fun y => y.category == x.category) =
            t.filter fun y => y.category == x.category := by
          rw [hl, List.filter_filter]
          refine List.filter_congr ?_
          intro y _
          by_cases hy : y.category = x.category
          · simp [hy, hc]
          · simp [hy]
        have h3 : (t.filter fun y =>
              !decide (y.category ∈ acc.map Prod.fst ++ [x.category])) =
            l.filter fun y => !(y.category == x.category) := by
          rw [hl, List.filter_filter]
          refine List.filter_congr ?_
          intro y _
          by_cases hyc : y.category = x.category
          · simp [hyc]
          · by_cases hyk : y.category ∈ acc.map Prod.fst <;> simp [hyc, hyk]
        have h4 : groupSpec (l.filter fun y => !(y.category == x.category)) =
            ((firstOccurrences (l.map Expense.category)).filter fun d =>
                !(d == x.category)).map
              (fun c => (c, sumAmounts (l.filter fun y => y.category == c))) := by
          simp only [groupSpec]
          have hmapcat : (l.filter fun y => !(y.category == x.category)).map
                Expense.category =
              (l.map Expense.category).filter fun d => !(d == x.category) := by
            rw [List.filter_map]
            rfl
          rw [hmapcat, firstOccurrences_filter]
          refine List.map_congr_left ?_
          intro d hd
          have hdc : d ≠ x.category := by
            have hne := (List.mem_filter.mp hd).2
            simp only [Bool.not_eq_true'] at hne
            exact beq_eq_false_iff_ne.mp hne
          rw [Prod.mk.injEq]
          refine ⟨rfl, ?_⟩
          congr 1
          rw [List.filter_filter]
          refine List.filter_congr ?_
          intro y _
          by_cases hy : y.category = d
          · have hyx : (y.category == x.category) = false :=
              beq_eq_false_iff_ne.mpr (hy ▸ hdc)
            simp [hy, hyx, hdc]
          · simp [hy]
        rw [hgs, h3, h4, h1, h2]
        simp

/-- The plain-property accumulator loop computes exactly the spec-side
grouping: each distinct category exactly once, in insertion order of first
appearance, with the sum of that category's amounts. -/
theorem groupByCategory_eq_groupSpec (rows : List Expense) :
    groupByCategory rows = groupSpec rows := by
  have h := foldl_upsert_spec rows [] (by simp)
  simpa [groupByCategory] using h

theorem map_fst_groupSpec (rows : List Expense) :
    (groupSpec rows).map Prod.fst = firstOccurrences (rows.map Expense.category) := by
  rw [groupSpec, List.map_map]
  refine (List.map_congr_left ?_).trans (List.map_id _)
  intro c _
  rfl

theorem mem_firstOccurrences (s : List String) (a : String)
    (h : a ∈ firstOccurrences s) : a ∈ s := by
  induction s with
  | nil => simp [firstOccurrences] at h
  | cons c t ih =>
      simp only [firstOccurrences, List.mem_cons] at h
      rcases h with h | h
      · simp [h]
      · exact List.mem_cons_of_mem _ (ih (List.mem_of_mem_filter h))

/-- With no `"__proto__"` category present, the budget branch's record writes
coincide with the plain-property loop. -/
theorem foldl_jsRecordAdd_eq (e : List Expense) :
    ∀ acc : List (String × ℚ), (∀ x ∈ e, x.category ≠ "__proto__") →
      e.foldl (fun acc x => jsRecordAdd acc x.category x.amount) acc =
        e.foldl (fun acc x => upsert acc x.category x.amount) acc := by
  induction e with
  | nil => intro acc _; rfl
  | cons x t ih =>
      intro acc h
      simp only [List.foldl_cons, jsRecordAdd,
        if_neg (h x (List.mem_cons_self x t))]
      exact ih _ fun y hy => h y (List.mem_cons_of_mem _ hy)

/-- With no array-index-like key among the own properties, `Object.entries`
enumerates in pure insertion order. -/
theorem jsObjectEntries_of_no_index (props : List (String × ℚ))
    (h : ∀ p ∈ props, isArrayIndexKey p.1 = false) :
    jsObjectEntries props = props := by
  unfold jsObjectEntries
  have h1 : (props.filter fun p => isArrayIndexKey p.1) = [] := by
    rw [List.filter_eq_nil_iff]
    intro p hp
    simp [h p hp]
  have h2 : (props.filter fun p => !(isArrayIndexKey p.1)) = props := by
    rw [List.filter_eq_self]
    intro p hp
    simp [h p hp]
  rw [h1, h2]
  rfl

/-! ## Substring and truncation lemmas -/

theorem containsAux_append (p pat s : List Char) :
    containsAux (p ++ (pat ++ s)) pat = true := by
  induction p with
  | nil =>
      simp only [List.nil_append]
      cases hps : pat ++ s with
      | nil =>
          have hpat : pat = [] := by
            cases pat with
            | nil => rfl
            | cons c t => simp at hps
          subst hpat
          simp [containsAux]
      | cons c t =>
          have hpre : pat.isPrefixOf (c :: t) = true := by
            rw [← hps]
            exact List.isPrefixOf_iff_prefix.mpr (List.prefix_append _ _)
          simp [containsAux, hpre]
  | cons c p ih =>
      by_cases hpre : pat.isPrefixOf (c :: (p ++ (pat ++ s))) = true
      · simp [containsAux, hpre]
      · simp only [List.cons_append, containsAux]
        simp only [Bool.not_eq_true] at hpre
        simp [hpre, ih]

/-- A string built with the pattern as its final append component always
passes `includes`. -/
theorem strContains_append_right (s pat : String) :
    strContains (s ++ pat) pat = true := by
  have h := containsAux_append s.toList pat.toList []
  simpa [strContains, String.toList, String.data_append] using h

theorem sumAmounts_take_lt (n : Nat) (l : List Expense)
    (hlen : n < l.length) (hpos : ∀ e ∈ l, 0 < e.amount) :
    sumAmounts (l.take n) < sumAmounts l := by
  conv_rhs => rw [← List.take_append_drop n l]
  rw [sumAmounts_append]
  have hne : l.drop n ≠ [] := by
    intro h
    have := congrArg List.length h
    simp at this
    omega
  have hpos' : 0 < sumAmounts (l.drop n) := by
    rw [sumAmounts_eq]
    refine List.sum_pos _ ?_ ?_
    · intro x hx
      obtain ⟨e, he, rfl⟩ := List.mem_map.mp hx
      exact hpos e (List.mem_of_mem_drop he)
    · simpa using hne
  linarith

/-! ## Fixtures for concrete examples -/

/-- A sample user row (income 50000, goal 20000) used by concrete examples. -/
def demoUser : User := ⟨"Demo", "demo@example.com", 50000, 20000, none⟩

/-- A user row with zero income and zero savings goal. -/
def zeroUser : User := ⟨"Zero", "zero@example.com", 0, 0, none⟩

theorem jsNumOr_zero (a : ℚ) : jsNumOr a 0 = a := by
  unfold jsNumOr
  split <;> simp_all

/-! ## Claim theorems -/

/-- Claim C2: the stats handler computes `goal_percentage` as `0` when the
savings goal is `≤ 0` and as `min 100 (saved/goal × 100)` otherwise, so it
always lies in `[0, 100]`; for income 50000, one expense of 10000 and goal
20000 it is exactly 100 (capped). -/
theorem stats_goal_percentage_bounds (u : User) (e : List Expense) :
    (statsHandler u e).goal_percentage =
      (if u.savings_goal ≤ 0 then 0
       else min 100 ((statsHandler u e).saved_amount / u.savings_goal * 100)) ∧
    0 ≤ (statsHandler u e).goal_percentage ∧
    (statsHandler u e).goal_percentage ≤ 100 ∧
    (statsHandler demoUser [⟨"groceries", 10000, "food"⟩]).goal_percentage = 100 := by
  refine ⟨?_, ?_, ?_, ?_⟩
  · by_cases hg : u.savings_goal ≤ 0
    · simp [statsHandler, hg, not_lt.mpr hg]
    · push_neg at hg
      simp [statsHandler, hg, not_le.mpr hg]
  · by_cases hg : u.savings_goal > 0
    · simp only [statsHandler, hg, if_pos]
      refine le_min (by norm_num) ?_
      exact mul_nonneg (div_nonneg (le_max_left 0 _) (le_of_lt hg)) (by norm_num)
    · simp [statsHandler, hg]
  · by_cases hg : u.savings_goal > 0
    · simp only [statsHandler, hg, if_pos]
      exact le_trans (min_le_left _ _) (by norm_num)
    · simp [statsHandler, hg]
  · simp [statsHandler, demoUser, groupByCategory, upsert, sumTotals_eq, jsNumOr,
      max_def, min_def]
    norm_num

/-- Claim C3: for nonnegative income, `saved_amount = max 0 (income − sum E)`
and `total_expenses = sum E`; an empty expense set gives `total_expenses = 0`
and `saved_amount = income`; income 0, goal 0 and no expenses give all-zero
statistics. -/
theorem stats_saved_amount_spec (u : User) (e : List Expense)
    (h : 0 ≤ u.monthly_income) :
    (statsHandler u e).saved_amount = max 0 (u.monthly_income - sumAmounts e) ∧
    (statsHandler u e).total_expenses = sumAmounts e ∧
    (statsHandler u []).total_expenses = 0 ∧
    (statsHandler u []).saved_amount = u.monthly_income ∧
    (statsHandler zeroUser []).total_expenses = 0 ∧
    (statsHandler zeroUser []).saved_amount = 0 ∧
    (statsHandler zeroUser []).goal_percentage = 0 := by
  refine ⟨?_, ?_, ?_, ?_, ?_, ?_, ?_⟩
  · simp [statsHandler, jsNumOr_zero, sumTotals_groupByCategory]
  · simp [statsHandler, sumTotals_groupByCategory]
  · simp [statsHandler, groupByCategory]
  · simp [statsHandler, groupByCategory, jsNumOr_zero, max_eq_right h]
  · simp [statsHandler, zeroUser, groupByCategory]
  · simp [statsHandler, zeroUser, groupByCategory, jsNumOr]
  · simp [statsHandler, zeroUser]

/-- Witness for C3 at a concrete input. -/
theorem stats_saved_amount_spec_witness :
    (statsHandler demoUser [⟨"groceries", 10000, "food"⟩]).saved_amount =
      max 0 (demoUser.monthly_income - sumAmounts [⟨"groceries", 10000, "food"⟩]) :=
  (stats_saved_amount_spec demoUser [⟨"groceries", 10000, "food"⟩]
    (by norm_num [demoUser])).1

/-- Claim C5 (code bug): the guard `!name || !amount || amount <= 0` accepts
the non-numeric string amount `"abc"` (it is truthy and its `NaN` coercion
makes the comparison false), although it does reject missing, `NaN`, zero and
negative amounts. -/
theorem expense_validation_gap :
    expenseRejected (JSVal.str "Lunch") (JSVal.str "abc") = false ∧
    jsToNumber (JSVal.str "abc") = none ∧
    expenseRejected (JSVal.str "Lunch") JSVal.undef = true ∧
    expenseRejected (JSVal.str "Lunch") JSVal.nan = true ∧
    expenseRejected (JSVal.str "Lunch") (JSVal.num 0) = true ∧
    expenseRejected (JSVal.str "Lunch") (JSVal.num (-5)) = true ∧
    expenseRejected (JSVal.str "Lunch") (JSVal.str "-5") = true := by
  decide

/-- Claim C9: the Advice Engine's output depends only on the question, the
user's income and savings goal, and the expense list; any other user fields
are irrelevant, so identical inputs give byte-identical output (the embedding
is a total pure function, mirroring a source body free of I/O, randomness and
mutation). -/
theorem advice_depends_only_on_facts (question : String) (e : List Expense)
    (u1 u2 : User) (hI : u1.monthly_income = u2.monthly_income)
    (hG : u1.savings_goal = u2.savings_goal) :
    generateMockAIResponse question u1 e = generateMockAIResponse question u2 e := by
  simp [generateMockAIResponse, hI, hG]

/-- Witness for C9: two users differing in every identity field but sharing
income and goal get the same advice. -/
theorem advice_depends_only_on_facts_witness :
    generateMockAIResponse "How do I save?" demoUser [] =
      generateMockAIResponse "How do I save?"
        ⟨"Other", "other@example.com", 50000, 20000, some "sk-1"⟩ [] :=
  advice_depends_only_on_facts "How do I save?" [] demoUser
    ⟨"Other", "other@example.com", 50000, 20000, some "sk-1"⟩ rfl rfl

/-- Counterexample to claim C1 as stated: with the API key missing, the chat
handler returns a 500 error response, not the Advice Engine output. -/
theorem chat_missing_key_returns_error :
    chatHandler none "How can I save more?" demoUser [] AICallOutcome.transportError =
      ChatResult.error 500 missingKeyMessage ∧
    chatHandler none "How can I save more?" demoUser [] AICallOutcome.transportError ≠
      ChatResult.ok (generateMockAIResponse "How can I save more?" demoUser []) := by
  constructor
  · rfl
  · intro hcontra
    simp [chatHandler] at hcontra

/-- Claim C1 (amended): with a configured (non-empty) API key and a non-empty
message, every failing external call — non-success HTTP status, transport
error or unparseable payload — makes the chat handler return a normal
response equal to the Advice Engine output for the same question, user facts
and (truncated) expense list, never an error. -/
theorem chat_fallback_on_failure (k message : String) (u : User) (l : List Expense)
    (o : AICallOutcome) (hk : k ≠ "") (hm : message ≠ "") (ho : o.isFailure = true) :
    chatHandler (some k) message u l o =
      ChatResult.ok (generateMockAIResponse message u (recentForChat l)) := by
  cases o with
  | success d => simp [AICallOutcome.isFailure] at ho
  | httpError => simp [chatHandler, hm, hk]
  | transportError => simp [chatHandler, hm, hk]
  | parseError => simp [chatHandler, hm, hk]

/-- Witness for C1's amended theorem at a concrete failing call. -/
theorem chat_fallback_on_failure_witness :
    chatHandler (some "key-123") "Help me plan" demoUser [] AICallOutcome.httpError =
      ChatResult.ok (generateMockAIResponse "Help me plan" demoUser (recentForChat [])) :=
  chat_fallback_on_failure "key-123" "Help me plan" demoUser [] AICallOutcome.httpError
    (by decide) (by decide) (by decide)

/-- Claim C6: on a successful external call from which no text can be
extracted, the chat handler returns the fixed (non-empty) apology string as a
normal response. -/
theorem chat_apology_on_unusable_payload (k message : String) (u : User)
    (l : List Expense) (d : GeminiData) (hk : k ≠ "") (hm : message ≠ "")
    (hd : extractAIText d = none) :
    chatHandler (some k) message u l (AICallOutcome.success d) =
      ChatResult.ok apologyMessage ∧
    apologyMessage ≠ "" := by
  refine ⟨?_, by decide⟩
  simp [chatHandler, hm, hk, hd]

/-- Witness for C6 at a payload with no candidates. -/
theorem chat_apology_on_unusable_payload_witness :
    chatHandler (some "key-123") "Hello" demoUser []
        (AICallOutcome.success ⟨[]⟩) = ChatResult.ok apologyMessage ∧
    apologyMessage ≠ "" :=
  chat_apology_on_unusable_payload "key-123" "Hello" demoUser [] ⟨[]⟩
    (by decide) (by decide) (by decide)

/-- Claim C4: keyword dispatch is case-insensitive and evaluated in the fixed
source order savings, budget, investment, debt, generic, first match winning;
in particular a question containing both "save" (even capitalized) and
"budget" produces the savings template. -/
theorem advice_keyword_priority (question : String) (u : User) (e : List Expense) :
    ((strContains (strToLower question) "save" ||
        strContains (strToLower question) "saving") = true →
      generateMockAIResponse question u e =
        savingsAdvice (jsNumOr u.monthly_income 0)
          (max 0 (jsNumOr u.monthly_income 0 - sumAmounts e))
          (jsNumOr u.savings_goal 0)) ∧
    ((strContains (strToLower question) "save" ||
        strContains (strToLower question) "saving") = false →
     (strContains (strToLower question) "budget" ||
        strContains (strToLower question) "spend") = true →
      generateMockAIResponse question u e = budgetAdvice e) ∧
    ((strContains (strToLower question) "save" ||
        strContains (strToLower question) "saving") = false →
     (strContains (strToLower question) "budget" ||
        strContains (strToLower question) "spend") = false →
     (strContains (strToLower question) "invest" ||
        strContains (strToLower question) "grow") = true →
      generateMockAIResponse question u e =
        investmentAdvice (jsNumOr u.monthly_income 0) (sumAmounts e)) ∧
    ((strContains (strToLower question) "save" ||
        strContains (strToLower question) "saving") = false →
     (strContains (strToLower question) "budget" ||
        strContains (strToLower question) "spend") = false →
     (strContains (strToLower question) "invest" ||
        strContains (strToLower question) "grow") = false →
     (strContains (strToLower question) "debt" ||
        strContains (strToLower question) "loan") = true →
      generateMockAIResponse question u e = debtAdvice) ∧
    ((strContains (strToLower question) "save" ||
        strContains (strToLower question) "saving") = false →
     (strContains (strToLower question) "budget" ||
        strContains (strToLower question) "spend") = false →
     (strContains (strToLower question) "invest" ||
        strContains (strToLower question) "grow") = false →
     (strContains (strToLower question) "debt" ||
        strContains (strToLower question) "loan") = false →
      generateMockAIResponse question u e =
        genericAdvice question (jsNumOr u.monthly_income 0) (sumAmounts e)
          (max 0 (jsNumOr u.monthly_income 0 - sumAmounts e))
          (jsNumOr u.savings_goal 0)) ∧
    generateMockAIResponse "Please SAVE more and budget" u e =
      savingsAdvice (jsNumOr u.monthly_income 0)
        (max 0 (jsNumOr u.monthly_income 0 - sumAmounts e))
        (jsNumOr u.savings_goal 0) := by
  refine ⟨?_, ?_, ?_, ?_, ?_, ?_⟩
  · intro h1
    simp [generateMockAIResponse, h1]
  · intro h1 h2
    simp [generateMockAIResponse, h1, h2]
  · intro h1 h2 h3
    simp [generateMockAIResponse, h1, h2, h3]
  · intro h1 h2 h3 h4
    simp [generateMockAIResponse, h1, h2, h3, h4]
  · intro h1 h2 h3 h4
    simp [generateMockAIResponse, h1, h2, h3, h4]
  · have h1 : (strContains (strToLower "Please SAVE more and budget") "save" ||
        strContains (strToLower "Please SAVE more and budget") "saving") = true := by
      decide
    simp [generateMockAIResponse, h1]

/-- Witness for C4 with the savings hypothesis discharged concretely. -/
theorem advice_keyword_priority_witness :
    generateMockAIResponse "How do I save money?" demoUser [] =
      savingsAdvice (jsNumOr demoUser.monthly_income 0)
        (max 0 (jsNumOr demoUser.monthly_income 0 - sumAmounts []))
        (jsNumOr demoUser.savings_goal 0) :=
  (advice_keyword_priority "How do I save money?" demoUser []).1 (by decide)

/-- Counterexample to claim C7 as stated: JavaScript object key enumeration
is not pure insertion order. With categories "2" then "1" (array-index-like
keys) the budget output lists "1" before "2" — the opposite of insertion
order, and different from the rendering of the first-appearance grouping
(whose value this theorem also pins down) — and a "__proto__" category is
silently dropped from the breakdown, so it is not listed exactly once. -/
theorem budget_breakdown_order_counterexample :
    (generateMockAIResponse "How should I budget?" demoUser
        [⟨"x", 300, "2"⟩, ⟨"y", 100, "1"⟩] =
      "Your spending breakdown:\n• 1: ₹100\n• 2: ₹300\n\nTry the 50/30/20 rule: 50% needs, 30% wants, 20% savings.") ∧
    groupSpec [⟨"x", 300, "2"⟩, ⟨"y", 100, "1"⟩] = [("2", 300), ("1", 100)] ∧
    (generateMockAIResponse "How should I budget?" demoUser
        [⟨"x", 300, "2"⟩, ⟨"y", 100, "1"⟩] ≠
      "Your spending breakdown:\n• 2: ₹300\n• 1: ₹100\n\nTry the 50/30/20 rule: 50% needs, 30% wants, 20% savings.") ∧
    generateMockAIResponse "How should I budget?" demoUser
        [⟨"z", 400, "__proto__"⟩] =
      "Your spending breakdown:\n\nTry the 50/30/20 rule: 50% needs, 30% wants, 20% savings." := by
  refine ⟨by decide, ?_, by decide, by decide⟩
  have hfo : firstOccurrences ["2", "1"] = ["2", "1"] := by decide
  have hfa : ([⟨"x", 300, "2"⟩, ⟨"y", 100, "1"⟩] : List Expense).filter
      (fun y => y.category == "2") = [⟨"x", 300, "2"⟩] := by decide
  have hfb : ([⟨"x", 300, "2"⟩, ⟨"y", 100, "1"⟩] : List Expense).filter
      (fun y => y.category == "1") = [⟨"y", 100, "1"⟩] := by decide
  simp only [groupSpec, List.map_cons, List.map_nil, hfo, hfa, hfb]
  simp [sumAmounts]

/-- Claim C7 (amended): for plain category labels — neither array-index-like
numerals nor keys of `Object.prototype` — the budget branch lists each
distinct category exactly once with the sum of its amounts, in insertion
order of first appearance (the spec-side grouping), followed by the fixed
50/30/20 sentence, and the key list has no duplicates; the rent/food example
renders "housing: ₹500" and "food: ₹200". -/
theorem budget_breakdown_plain_spec (question : String) (u : User) (e : List Expense)
    (hs : (strContains (strToLower question) "save" ||
        strContains (strToLower question) "saving") = false)
    (hb : (strContains (strToLower question) "budget" ||
        strContains (strToLower question) "spend") = true)
    (hplain : ∀ x ∈ e, plainCategoryKey x.category = true) :
    generateMockAIResponse question u e =
      (groupSpec e).foldl
          (fun acc ce => acc ++ "• " ++ ce.1 ++ ": ₹" ++ renderQ ce.2 ++ "\n")
          "Your spending breakdown:\n" ++
        "\nTry the 50/30/20 rule: 50% needs, 30% wants, 20% savings." ∧
    ((groupSpec e).map Prod.fst).Nodup ∧
    generateMockAIResponse "How should I budget?" u
        [⟨"rent", 500, "housing"⟩, ⟨"food", 200, "food"⟩] =
      "Your spending breakdown:\n• housing: ₹500\n• food: ₹200\n\nTry the 50/30/20 rule: 50% needs, 30% wants, 20% savings." := by
  have hplain' : ∀ x ∈ e,
      isArrayIndexKey x.category = false ∧ x.category ∉ objectPrototypeKeys := by
    intro x hx
    have hp := hplain x hx
    rw [plainCategoryKey, Bool.and_eq_true, Bool.not_eq_true', Bool.not_eq_true'] at hp
    refine ⟨hp.1, ?_⟩
    intro hmem
    have htrue : objectPrototypeKeys.contains x.category = true :=
      List.elem_iff.mpr hmem
    rw [hp.2] at htrue
    exact Bool.false_ne_true htrue
  refine ⟨?_, ?_, ?_⟩
  · have hnp : ∀ x ∈ e, x.category ≠ "__proto__" := by
      intro x hx hcontra
      exact (hplain' x hx).2 (by rw [hcontra]; simp [objectPrototypeKeys])
    have hrec : e.foldl (fun acc x => jsRecordAdd acc x.category x.amount) [] =
        groupByCategory e := by
      rw [groupByCategory]
      exact foldl_jsRecordAdd_eq e [] hnp
    have hkeysplain : ∀ p ∈ groupByCategory e, isArrayIndexKey p.1 = false := by
      intro p hp
      have hk : p.1 ∈ (groupByCategory e).map Prod.fst := List.mem_map_of_mem _ hp
      rw [groupByCategory_eq_groupSpec, map_fst_groupSpec] at hk
      obtain ⟨x, hx, hxc⟩ := List.mem_map.mp (mem_firstOccurrences _ _ hk)
      rw [← hxc]
      exact (hplain' x hx).1
    have hent : jsObjectEntries (groupByCategory e) = groupByCategory e :=
      jsObjectEntries_of_no_index _ hkeysplain
    have hout : generateMockAIResponse question u e = budgetAdvice e := by
      simp [generateMockAIResponse, hs, hb]
    rw [hout]
    simp only [budgetAdvice]
    rw [hrec, hent, groupByCategory_eq_groupSpec]
  · rw [map_fst_groupSpec]
    exact nodup_firstOccurrences _
  · have h1 : (strContains (strToLower "How should I budget?") "save" ||
        strContains (strToLower "How should I budget?") "saving") = false := by decide
    have h2 : (strContains (strToLower "How should I budget?") "budget" ||
        strContains (strToLower "How should I budget?") "spend") = true := by decide
    simp [generateMockAIResponse, h1, h2]
    decide

/-- Witness for C7's amended theorem with all hypotheses discharged
concretely (the example's categories are plain labels). -/
theorem budget_breakdown_plain_spec_witness :
    generateMockAIResponse "How should I budget?" demoUser
        [⟨"rent", 500, "housing"⟩, ⟨"food", 200, "food"⟩] =
      (groupSpec [⟨"rent", 500, "housing"⟩, ⟨"food", 200, "food"⟩]).foldl
          (fun acc ce => acc ++ "• " ++ ce.1 ++ ": ₹" ++ renderQ ce.2 ++ "\n")
          "Your spending breakdown:\n" ++
        "\nTry the 50/30/20 rule: 50% needs, 30% wants, 20% savings." :=
  (budget_breakdown_plain_spec "How should I budget?" demoUser
    [⟨"rent", 500, "housing"⟩, ⟨"food", 200, "food"⟩]
    (by decide) (by decide) (by decide)).1

/-- Claim C8: on the investment branch the interpolated figures are an
emergency fund of `4 × total_expenses` and a monthly contribution of
`min 5000 (income / 10)`, and the output mentions fixed deposits as a safe
short-term option. -/
theorem investment_branch_figures (question : String) (u : User) (e : List Expense)
    (hs : (strContains (strToLower question) "save" ||
        strContains (strToLower question) "saving") = false)
    (hb : (strContains (strToLower question) "budget" ||
        strContains (strToLower question) "spend") = false)
    (hi : (strContains (strToLower question) "invest" ||
        strContains (strToLower question) "grow") = true) :
    generateMockAIResponse question u e =
      "For your income of ₹" ++ renderQ (jsNumOr u.monthly_income 0) ++
        ", consider these investment options:\n1. Emergency Fund: 3-6 months of expenses (₹" ++
        renderQ (4 * sumAmounts e) ++
        ")\n2. Mutual Funds: Start with ₹" ++
        renderQ (min 5000 (jsNumOr u.monthly_income 0 / 10)) ++
        " monthly SIP\n3. Fixed Deposits: Safe option for short-term goals" ∧
    strContains (generateMockAIResponse question u e)
      "Fixed Deposits: Safe option for short-term goals" = true := by
  have hmain : generateMockAIResponse question u e =
      investmentAdvice (jsNumOr u.monthly_income 0) (sumAmounts e) := by
    simp [generateMockAIResponse, hs, hb, hi]
  have hmul : sumAmounts e * 4 = 4 * sumAmounts e := mul_comm _ _
  have hdiv : jsNumOr u.monthly_income 0 * 0.1 = jsNumOr u.monthly_income 0 / 10 := by
    ring
  constructor
  · rw [hmain]
    unfold investmentAdvice
    rw [hmul, hdiv]
  · rw [hmain]
    unfold investmentAdvice
    have hsplit :
        (" monthly SIP\n3. Fixed Deposits: Safe option for short-term goals" : String) =
          " monthly SIP\n3. " ++ "Fixed Deposits: Safe option for short-term goals" := rfl
    rw [hsplit, ← String.append_assoc]
    exact strContains_append_right _ _

/-- Witness for C8 on a concrete investment question. -/
theorem investment_branch_figures_witness :
    strContains (generateMockAIResponse "Where should I invest?" demoUser [])
      "Fixed Deposits: Safe option for short-term goals" = true :=
  (investment_branch_figures "Where should I invest?" demoUser []
    (by decide) (by decide) (by decide)).2

theorem containsAux_append_left (p l pat : List Char)
    (h : containsAux l pat = true) : containsAux (p ++ l) pat = true := by
  induction p with
  | nil => simpa using h
  | cons c t ih =>
      by_cases hpre : pat.isPrefixOf (c :: (t ++ l)) = true
      · simp [containsAux, hpre]
      · simp only [Bool.not_eq_true] at hpre
        simp [containsAux, hpre, ih]

/-- Prepending any string preserves `includes`. -/
theorem strContains_append_left (a s pat : String)
    (h : strContains s pat = true) : strContains (a ++ s) pat = true := by
  have h' : containsAux (a.data ++ s.data) pat.data = true :=
    containsAux_append_left a.data s.data pat.data
      (by simpa [strContains, String.toList] using h)
  simpa [strContains, String.toList, String.data_append] using h'

/-- A string that starts with the pattern passes `includes`. -/
theorem strContains_of_prefixed (s pat post : String) (h : s = pat ++ post) :
    strContains s pat = true := by
  subst h
  have h' := containsAux_append [] pat.toList post.toList
  simpa [strContains, String.toList, String.data_append] using h'

/-- The chat context string interpolates exactly the truncated monthly total
after the fixed "Current Month Expenses" label. -/
theorem financialContext_mentions_monthly_total (u : User) (ex : List Expense) :
    strContains (financialContext u ex)
      ("Current Month Expenses: ₹" ++ renderQ (jsNumOr (sumAmounts ex) 0)) = true := by
  simp only [financialContext]
  rw [show ("\n            - Current Month Expenses: ₹" : String) =
      "\n            - " ++ "Current Month Expenses: ₹" from rfl]
  simp only [String.append_assoc]
  apply strContains_append_left
  apply strContains_append_left
  apply strContains_append_left
  apply strContains_append_left
  apply strContains_append_left
  exact strContains_of_prefixed _ _ _ (String.append_assoc _ _ _).symm

/-- Six in-month expenses of 100 each (more than the chat query's LIMIT 5). -/
def sixExpenses : List Expense :=
  [⟨"a", 100, "misc"⟩, ⟨"b", 100, "misc"⟩, ⟨"c", 100, "misc"⟩,
   ⟨"d", 100, "misc"⟩, ⟨"e", 100, "misc"⟩, ⟨"f", 100, "misc"⟩]

/-- Claim C10: the chat pipeline computes its expense figures from at most
the 5 most-recent in-month rows — the context string interpolates the
truncated total and the fallback Advice Engine receives the truncated list —
so with more than 5 positive in-month expenses that total is strictly
smaller than the stats handler's full monthly `total_expenses`. -/
theorem chat_context_truncates_expenses (k message : String) (u : User)
    (l : List Expense) (o : AICallOutcome) (hk : k ≠ "") (hm : message ≠ "")
    (ho : o.isFailure = true) (hlen : 5 < l.length)
    (hpos : ∀ e ∈ l, 0 < e.amount) :
    sumAmounts (recentForChat l) < (statsHandler u l).total_expenses ∧
    chatHandler (some k) message u l o =
      ChatResult.ok (generateMockAIResponse message u (recentForChat l)) ∧
    strContains (financialContext u (recentForChat l))
      ("Current Month Expenses: ₹" ++
        renderQ (jsNumOr (sumAmounts (recentForChat l)) 0)) = true := by
  refine ⟨?_, ?_, ?_⟩
  · have htot : (statsHandler u l).total_expenses = sumAmounts l := by
      simp [statsHandler, sumTotals_groupByCategory]
    rw [htot]
    exact sumAmounts_take_lt 5 l hlen hpos
  · cases o with
    | success d => simp [AICallOutcome.isFailure] at ho
    | httpError => simp [chatHandler, hm, hk]
    | transportError => simp [chatHandler, hm, hk]
    | parseError => simp [chatHandler, hm, hk]
  · exact financialContext_mentions_monthly_total u (recentForChat l)

/-- Witness for C10: six expenses of 100 give a chat total of 500 against a
monthly total of 600. -/
theorem chat_context_truncates_expenses_witness :
    sumAmounts (recentForChat sixExpenses) <
      (statsHandler demoUser sixExpenses).total_expenses :=
  (chat_context_truncates_expenses "key-123" "What should I do?" demoUser
    sixExpenses AICallOutcome.httpError (by decide) (by decide) (by decide)
    (by decide) (by decide)).1

end FineFlex

